import Mathlib

/-!
Verification development for the time_value crate, covering the IRR
bisection core: the NPV evaluator (src/present_value.rs), the
scale-relative approximate-equality check
(src/irr/bisection/functions/are_equal_enough.rs), the overflow-safe
midpoint_calculate (src/irr/bisection/functions/midpoint.rs), the initial-bounds
finder (src/irr/bisection/functions/initial_bounds.rs) and the bisection
solver (src/irr/bisection/functions/irr.rs).

The generic float type T of the source is embedded as ℚ (exact
arithmetic). The two machine-dependent quantities the source reads off T
are passed explicitly: `ε` stands for T::epsilon() and `max_value` for
T::max_value(). The two fields that the source sets to T::nan() on the
invalid-bracket path are embedded as `Option ℚ` with `none` standing for
NaN. Iteration counters and limits (i16 in the source) are embedded as ℤ;
the while-loops run at most `iteration_limit` times starting from a
counter of 0, so an i16 never overflows and fuel `iteration_limit.toNat`
reproduces the while-loop exactly.
-/

/-- src/irr/bisection/constants.rs: NPV_PRECISION = 0.001, the tolerance on
NPV magnitude below which a rate counts as a root. -/
def NPV_PRECISION : ℚ := 1 / 1000

/-- src/present_value.rs, `present_value`: cash_flow * (1 + rate)^(-period).
In exact arithmetic the negative power powi(-period) is the reciprocal of
the period-th power (ℚ sets 0⁻¹ = 0 where the floats would be non-finite). -/
def present_value (cash_flow : ℚ) (period : ℕ) (discount_rate : ℚ) : ℚ :=
  cash_flow * ((1 + discount_rate) ^ period)⁻¹

/-- src/present_value.rs, `from_cash_flows_and_discount_rate`: the NPV,
summing each cash flow discounted by its index. -/
def from_cash_flows_and_discount_rate (cash_flows : List ℚ) (discount_rate : ℚ) : ℚ :=
  (cash_flows.enum.map (fun pc => present_value pc.2 pc.1 discount_rate)).sum

/-- src/irr/bisection/functions/are_equal_enough.rs, `is_true`:
|a - b| <= max(|a|, |b|) * ε, with ε the machine epsilon of T. -/
def are_equal_enough (ε a b : ℚ) : Bool :=
  let difference := |a - b|
  let a_abs := |a|
  let b_abs := |b|
  let larger := if a_abs < b_abs then b_abs else a_abs
  decide (difference ≤ larger * ε)

/-- src/irr/bisection/functions/midpoint.rs, `calculate`: a + (c - a) / 2. -/
def midpoint_calculate (a c : ℚ) : ℚ :=
  a + (c - a) / 2

/-- src/irr/bisection/structs/irr.rs: the result record of the bisection
solver. `irr` and `npv` are `Option ℚ`; `none` embeds the T::nan() the
source stores on the invalid-bracket path. -/
structure Irr where
  rate_low : ℚ
  npv_rate_low : ℚ
  rate_high : ℚ
  npv_rate_high : ℚ
  iteration_limit : ℤ
  iterations_run : ℤ
  irr : Option ℚ
  npv : Option ℚ
  is_valid : Bool
  deriving DecidableEq

/-- The mutable locals of the bisection loop in
src/irr/bisection/functions/irr.rs. -/
structure BisectionState where
  rate_low : ℚ
  npv_rate_low : ℚ
  rate_high : ℚ
  npv_rate_high : ℚ
  irr : ℚ
  npv : ℚ
  iterations_run : ℤ
  deriving DecidableEq

/-- One pass of the bisection while-loop body: keep the half of the bracket
that still straddles the sign change, then recompute midpoint_calculate and its NPV. -/
def bisectionStep (cash_flows : List ℚ) (s : BisectionState) : BisectionState :=
  let t :=
    if s.npv_rate_low * s.npv < 0 then
      { s with rate_high := s.irr, npv_rate_high := s.npv }
    else
      { s with rate_low := s.irr, npv_rate_low := s.npv }
  let m := midpoint_calculate t.rate_low t.rate_high
  { t with irr := m, npv := from_cash_flows_and_discount_rate cash_flows m,
           iterations_run := s.iterations_run + 1 }

/-- The bisection while-loop, fueled. The loop guard is exactly the guard of
the source: `iterations_run < iteration_limit && !are_equal_enough(precision, npv)`.
Called with fuel `iteration_limit.toNat` from a state with
`iterations_run = 0`, fuel exhaustion coincides with the guard turning
false, so this is the while-loop of the source. -/
def bisectionLoop (ε : ℚ) (cash_flows : List ℚ) (iteration_limit : ℤ) :
    ℕ → BisectionState → BisectionState
  | 0, s => s
  | fuel + 1, s =>
    if s.iterations_run < iteration_limit ∧
        are_equal_enough ε NPV_PRECISION s.npv = false then
      bisectionLoop ε cash_flows iteration_limit fuel (bisectionStep cash_flows s)
    else s

/-- The state of the bisection locals just before the loop: bounds and their
NPVs, midpoint_calculate and its NPV, counter 0. -/
def initState (cash_flows : List ℚ) (rate_low_guess rate_high_guess : ℚ) : BisectionState :=
  ⟨rate_low_guess, from_cash_flows_and_discount_rate cash_flows rate_low_guess,
   rate_high_guess, from_cash_flows_and_discount_rate cash_flows rate_high_guess,
   midpoint_calculate rate_low_guess rate_high_guess,
   from_cash_flows_and_discount_rate cash_flows (midpoint_calculate rate_low_guess rate_high_guess),
   0⟩

/-- The record `Irr::new(...)` built after the loop in
src/irr/bisection/functions/irr.rs: validity is |npv| <= NPV_PRECISION. -/
def mkIrr (iteration_limit : ℤ) (s : BisectionState) : Irr :=
  ⟨s.rate_low, s.npv_rate_low, s.rate_high, s.npv_rate_high, iteration_limit,
   s.iterations_run, some s.irr, some s.npv, decide (|s.npv| ≤ NPV_PRECISION)⟩

/-- src/irr/bisection/functions/irr.rs, `bisection`: the IRR solver. If the
NPVs at the two bounds have strictly positive product the bracket is
invalid and the solver returns at once with NaN irr and npv; otherwise it
bisects until the guard fails and reports the final midpoint. -/
def bisection (ε : ℚ) (cash_flows : List ℚ) (rate_low_guess rate_high_guess : ℚ)
    (iteration_limit : ℤ) : Irr :=
  if 0 < from_cash_flows_and_discount_rate cash_flows rate_low_guess *
      from_cash_flows_and_discount_rate cash_flows rate_high_guess then
    ⟨rate_low_guess, from_cash_flows_and_discount_rate cash_flows rate_low_guess,
     rate_high_guess, from_cash_flows_and_discount_rate cash_flows rate_high_guess,
     iteration_limit, 0, none, none, false⟩
  else
    mkIrr iteration_limit
      (bisectionLoop ε cash_flows iteration_limit iteration_limit.toNat
        (initState cash_flows rate_low_guess rate_high_guess))

/-- src/irr/bisection/structs/initial_bounds.rs: the result record of the
initial-bounds finder. -/
structure InitialBounds where
  rate_low : ℚ
  npv_rate_low : ℚ
  rate_high : ℚ
  npv_rate_high : ℚ
  iteration_limit : ℤ
  iterations_run : ℤ
  is_valid : Bool
  deriving DecidableEq

/-- src/irr/bisection/functions/initial_bounds.rs,
`generate_epsilon_multiple`: double the step multiplier while it is below
half of T::max_value(), otherwise clamp it to T::max_value(). -/
def generate_epsilon_multiple (max_value epsilon_multiple : ℚ) : ℚ :=
  if epsilon_multiple < max_value / 2 then epsilon_multiple * 2 else max_value

/-- The mutable locals of the search loop in
src/irr/bisection/functions/initial_bounds.rs. -/
structure BoundsState where
  epsilon_multiple : ℚ
  rate_low : ℚ
  rate_high : ℚ
  npv_rate_low : ℚ
  npv_rate_high : ℚ
  iterations_run : ℤ
  deriving DecidableEq

/-- One pass of the bounds-search loop body: grow the multiplier, slide the
bracket one step in the fixed direction, re-evaluate both NPVs. -/
def boundsStep (ε max_value : ℚ) (cash_flows : List ℚ) (go_low : Bool)
    (s : BoundsState) : BoundsState :=
  let f := generate_epsilon_multiple max_value s.epsilon_multiple
  let rl := if go_low then s.rate_low - f * ε else s.rate_high
  let rh := if go_low then s.rate_low else s.rate_high + f * ε
  ⟨f, rl, rh, from_cash_flows_and_discount_rate cash_flows rl,
   from_cash_flows_and_discount_rate cash_flows rh, s.iterations_run + 1⟩

/-- The bounds-search while-loop, fueled: guard `iterations_run < iteration_limit`;
inside, an opposite-sign (or zero) NPV product returns the current bracket
as found (Bool `true`); fuel exhaustion is the guard turning false and
returns the current bracket as not found. -/
def boundsLoop (ε max_value : ℚ) (cash_flows : List ℚ) (iteration_limit : ℤ)
    (go_low : Bool) : ℕ → BoundsState → BoundsState × Bool
  | 0, s => (s, false)
  | fuel + 1, s =>
    if s.iterations_run < iteration_limit then
      if s.npv_rate_low * s.npv_rate_high ≤ 0 then (s, true)
      else
        boundsLoop ε max_value cash_flows iteration_limit go_low fuel
          (boundsStep ε max_value cash_flows go_low s)
    else (s, false)

/-- The micro-bracket state the finder starts from: multiplier 10, bounds
guess ∓ 10ε, counter 0. -/
def boundsInit (ε : ℚ) (cash_flows : List ℚ) (rate_guess : ℚ) : BoundsState :=
  ⟨10, rate_guess - 10 * ε, rate_guess + 10 * ε,
   from_cash_flows_and_discount_rate cash_flows (rate_guess - 10 * ε),
   from_cash_flows_and_discount_rate cash_flows (rate_guess + 10 * ε), 0⟩

/-- The record `InitialBounds::new(...)` built from the final loop state and
the found flag in src/irr/bisection/functions/initial_bounds.rs. -/
def mkInitialBounds (iteration_limit : ℤ) (r : BoundsState × Bool) : InitialBounds :=
  ⟨r.1.rate_low, r.1.npv_rate_low, r.1.rate_high, r.1.npv_rate_high,
   iteration_limit, r.1.iterations_run, r.2⟩

/-- src/irr/bisection/functions/initial_bounds.rs, `determine`: the
initial-bounds finder. A guess whose NPV magnitude is already below
NPV_PRECISION is returned at once as a degenerate valid bracket; otherwise
the finder fixes a search direction from which side of the micro-bracket
has the smaller NPV magnitude and searches outward. -/
def determine (ε max_value : ℚ) (cash_flows : List ℚ) (rate_guess : ℚ)
    (iteration_limit : ℤ) : InitialBounds :=
  if |from_cash_flows_and_discount_rate cash_flows rate_guess| < NPV_PRECISION then
    ⟨rate_guess, from_cash_flows_and_discount_rate cash_flows rate_guess,
     rate_guess, from_cash_flows_and_discount_rate cash_flows rate_guess,
     iteration_limit, 0, true⟩
  else
    mkInitialBounds iteration_limit
      (boundsLoop ε max_value cash_flows iteration_limit
        (decide (|(boundsInit ε cash_flows rate_guess).npv_rate_low| <
          |(boundsInit ε cash_flows rate_guess).npv_rate_high|))
        iteration_limit.toNat (boundsInit ε cash_flows rate_guess))

/-- The machine epsilon of f32, one of the two float widths the crate
instantiates T with: 2^(-23). Used by concrete witnesses. -/
def f32_epsilon : ℚ := 1 / 2 ^ 23

/-- The largest finite f32 value, (2 - 2^(-23)) * 2^127. Used by concrete
witnesses. -/
def f32_max_value : ℚ := (2 ^ 24 - 1) * 2 ^ 104

/-! Theorems. -/

/-- C8: for every cash-flow series, scalar k and discount rate, the NPV of
the series with every cash flow multiplied by k equals k times the NPV of
the original series at the same rate. -/
theorem npv_linear_scaling (cash_flows : List ℚ) (k discount_rate : ℚ) :
    from_cash_flows_and_discount_rate (cash_flows.map (fun cf => k * cf)) discount_rate =
      k * from_cash_flows_and_discount_rate cash_flows discount_rate := by
  unfold from_cash_flows_and_discount_rate
  rw [List.enum_map, List.map_map]
  have hfun : ((fun pc : ℕ × ℚ => present_value pc.2 pc.1 discount_rate) ∘
      Prod.map id fun cf => k * cf) =
      fun pc : ℕ × ℚ => k * present_value pc.2 pc.1 discount_rate := by
    funext pc
    simp only [Function.comp_apply, Prod.map, id]
    unfold present_value
    ring
  rw [hfun, List.sum_map_mul_left]

/-- C9: midpoint_calculate computes a + (c - a)/2, lies between a and c, and
when both arguments are within 50 percent of the largest finite value no
intermediate quantity and no result exceeds that largest value. -/
theorem midpoint_calculate_between_no_overflow (a c max_value : ℚ)
    (ha : |a| ≤ max_value / 2) (hc : |c| ≤ max_value / 2) :
    midpoint_calculate a c = a + (c - a) / 2 ∧
    min a c ≤ midpoint_calculate a c ∧ midpoint_calculate a c ≤ max a c ∧
    |c - a| ≤ max_value ∧ |(c - a) / 2| ≤ max_value ∧
    |midpoint_calculate a c| ≤ max_value := by
  obtain ⟨ha1, ha2⟩ := abs_le.mp ha
  obtain ⟨hc1, hc2⟩ := abs_le.mp hc
  unfold midpoint_calculate
  refine ⟨rfl, ?_, ?_, ?_, ?_, ?_⟩
  · rcases le_total a c with h | h
    · rw [min_eq_left h]; linarith
    · rw [min_eq_right h]; linarith
  · rcases le_total a c with h | h
    · rw [max_eq_right h]; linarith
    · rw [max_eq_left h]; linarith
  · rw [abs_le]; constructor <;> linarith
  · rw [abs_le]; constructor <;> linarith
  · rw [abs_le]; constructor <;> linarith

/-- Witness for C9 at a = 1, c = 2, max_value = 4. -/
theorem midpoint_calculate_between_no_overflow_witness :
    |(1 : ℚ)| ≤ 4 / 2 ∧ |(2 : ℚ)| ≤ 4 / 2 ∧
    (midpoint_calculate 1 2 = 1 + (2 - 1) / 2 ∧
      min (1 : ℚ) 2 ≤ midpoint_calculate 1 2 ∧ midpoint_calculate 1 2 ≤ max (1 : ℚ) 2 ∧
      |(2 : ℚ) - 1| ≤ 4 ∧ |((2 : ℚ) - 1) / 2| ≤ 4 ∧ |midpoint_calculate 1 2| ≤ 4) :=
  ⟨by norm_num, by norm_num,
    midpoint_calculate_between_no_overflow 1 2 4 (by norm_num) (by norm_num)⟩

/-- C10: the step multiplier is doubled only while it is below half the
largest finite value and is otherwise clamped to that value, so starting
from any multiplier at most max_value it stays at most max_value after any
number of iterations of the update. -/
theorem generate_epsilon_multiple_clamped (max_value f : ℚ) (h : f ≤ max_value) :
    (f < max_value / 2 → generate_epsilon_multiple max_value f = f * 2) ∧
    (¬ f < max_value / 2 → generate_epsilon_multiple max_value f = max_value) ∧
    ∀ n : ℕ, (generate_epsilon_multiple max_value)^[n] f ≤ max_value := by
  have step : ∀ g : ℚ, g ≤ max_value → generate_epsilon_multiple max_value g ≤ max_value := by
    intro g hg
    unfold generate_epsilon_multiple
    split
    · linarith
    · exact le_refl _
  refine ⟨fun h2 => by rw [generate_epsilon_multiple, if_pos h2],
          fun h2 => by rw [generate_epsilon_multiple, if_neg h2], ?_⟩
  intro n
  induction n with
  | zero => simpa using h
  | succ n ih =>
    rw [Function.iterate_succ_apply']
    exact step _ ih

/-- Witness for C10 at f = 10, max_value = 100, 6 iterations of the update. -/
theorem generate_epsilon_multiple_clamped_witness :
    (10 : ℚ) ≤ 100 ∧ (generate_epsilon_multiple 100)^[6] 10 ≤ 100 :=
  ⟨by norm_num, (generate_epsilon_multiple_clamped 100 10 (by norm_num)).2.2 6⟩

/-- C2: when the NPVs at the two supplied rates have strictly positive
product, bisection returns at once: is_valid false, iterations_run 0, NaN
irr and npv, and the caller-supplied bounds with their evaluated NPVs. -/
theorem bisection_invalid_bracket (ε : ℚ) (cash_flows : List ℚ)
    (rate_low rate_high : ℚ) (iteration_limit : ℤ)
    (h : 0 < from_cash_flows_and_discount_rate cash_flows rate_low *
        from_cash_flows_and_discount_rate cash_flows rate_high) :
    bisection ε cash_flows rate_low rate_high iteration_limit =
      ⟨rate_low, from_cash_flows_and_discount_rate cash_flows rate_low,
       rate_high, from_cash_flows_and_discount_rate cash_flows rate_high,
       iteration_limit, 0, none, none, false⟩ := by
  rw [bisection, if_pos h]

/-- Witness for C2: the series [1] has NPV 1 at every rate, so any bracket
has positive product. -/
theorem bisection_invalid_bracket_witness :
    0 < from_cash_flows_and_discount_rate [1] 0 *
      from_cash_flows_and_discount_rate [1] 1 ∧
    bisection f32_epsilon [1] 0 1 7 =
      ⟨0, from_cash_flows_and_discount_rate [1] 0,
       1, from_cash_flows_and_discount_rate [1] 1, 7, 0, none, none, false⟩ :=
  ⟨by norm_num [from_cash_flows_and_discount_rate, present_value, List.enum, List.enumFrom],
   bisection_invalid_bracket f32_epsilon [1] 0 1 7
     (by norm_num [from_cash_flows_and_discount_rate, present_value, List.enum, List.enumFrom])⟩

/-- C5: a guess whose NPV magnitude is strictly below NPV_PRECISION makes
determine return immediately: both rates equal the guess, both npv fields
equal the NPV at the guess, iterations_run 0, is_valid true. -/
theorem determine_good_guess (ε max_value : ℚ) (cash_flows : List ℚ)
    (rate_guess : ℚ) (iteration_limit : ℤ)
    (h : |from_cash_flows_and_discount_rate cash_flows rate_guess| < NPV_PRECISION) :
    determine ε max_value cash_flows rate_guess iteration_limit =
      ⟨rate_guess, from_cash_flows_and_discount_rate cash_flows rate_guess,
       rate_guess, from_cash_flows_and_discount_rate cash_flows rate_guess,
       iteration_limit, 0, true⟩ := by
  rw [determine, if_pos h]

/-- Witness for C5: the series [0] has NPV 0 at every rate. -/
theorem determine_good_guess_witness :
    |from_cash_flows_and_discount_rate [0] (1 / 2)| < NPV_PRECISION ∧
    determine f32_epsilon f32_max_value [0] (1 / 2) 3 =
      ⟨1 / 2, from_cash_flows_and_discount_rate [0] (1 / 2),
       1 / 2, from_cash_flows_and_discount_rate [0] (1 / 2), 3, 0, true⟩ :=
  ⟨by norm_num [from_cash_flows_and_discount_rate, present_value, List.enum, List.enumFrom,
      NPV_PRECISION],
   determine_good_guess f32_epsilon f32_max_value [0] (1 / 2) 3
     (by norm_num [from_cash_flows_and_discount_rate, present_value, List.enum, List.enumFrom,
       NPV_PRECISION])⟩

/-- C6: with a guess whose NPV magnitude is not strictly below
NPV_PRECISION and iteration limit 0, determine returns is_valid false and
iterations_run 0 whatever the micro-bracket looks like. -/
theorem determine_zero_iteration_limit (ε max_value : ℚ) (cash_flows : List ℚ)
    (rate_guess : ℚ)
    (h : ¬ |from_cash_flows_and_discount_rate cash_flows rate_guess| < NPV_PRECISION) :
    (determine ε max_value cash_flows rate_guess 0).is_valid = false ∧
    (determine ε max_value cash_flows rate_guess 0).iterations_run = 0 := by
  rw [determine, if_neg h]
  exact ⟨rfl, rfl⟩

/-- Witness for C6: the series [1] has NPV 1 at the guess 0, well above the
tolerance. -/
theorem determine_zero_iteration_limit_witness :
    ¬ |from_cash_flows_and_discount_rate [1] 0| < NPV_PRECISION ∧
    ((determine f32_epsilon f32_max_value [1] 0 0).is_valid = false ∧
      (determine f32_epsilon f32_max_value [1] 0 0).iterations_run = 0) :=
  ⟨by norm_num [from_cash_flows_and_discount_rate, present_value, List.enum, List.enumFrom,
      NPV_PRECISION],
   determine_zero_iteration_limit f32_epsilon f32_max_value [1] 0
     (by norm_num [from_cash_flows_and_discount_rate, present_value, List.enum, List.enumFrom,
       NPV_PRECISION])⟩

/-- The invariant of the bisection loop locals: the npv fields are the NPVs
of the rate fields, the candidate is the midpoint of the bracket and the
npv field is its NPV. -/
def BisectionInv (cash_flows : List ℚ) (s : BisectionState) : Prop :=
  s.npv_rate_low = from_cash_flows_and_discount_rate cash_flows s.rate_low ∧
  s.npv_rate_high = from_cash_flows_and_discount_rate cash_flows s.rate_high ∧
  s.irr = midpoint_calculate s.rate_low s.rate_high ∧
  s.npv = from_cash_flows_and_discount_rate cash_flows s.irr

theorem bisectionStep_inv (cash_flows : List ℚ) (s : BisectionState)
    (h : BisectionInv cash_flows s) :
    BisectionInv cash_flows (bisectionStep cash_flows s) := by
  obtain ⟨h1, h2, h3, h4⟩ := h
  simp only [bisectionStep]
  by_cases hc : s.npv_rate_low * s.npv < 0
  · rw [if_pos hc]
    exact ⟨h1, h4, rfl, rfl⟩
  · rw [if_neg hc]
    exact ⟨h4, h2, rfl, rfl⟩

theorem initState_inv (cash_flows : List ℚ) (a b : ℚ) :
    BisectionInv cash_flows (initState cash_flows a b) :=
  ⟨rfl, rfl, rfl, rfl⟩

theorem bisectionLoop_inv (ε : ℚ) (cash_flows : List ℚ) (iteration_limit : ℤ) :
    ∀ (fuel : ℕ) (s : BisectionState), BisectionInv cash_flows s →
      BisectionInv cash_flows (bisectionLoop ε cash_flows iteration_limit fuel s) := by
  intro fuel
  induction fuel with
  | zero => intro s h; simpa only [bisectionLoop] using h
  | succ n ih =>
    intro s h
    simp only [bisectionLoop]
    split
    · exact ih _ (bisectionStep_inv cash_flows s h)
    · exact h

theorem bisectionLoop_exit (ε : ℚ) (cash_flows : List ℚ) (iteration_limit : ℤ) :
    ∀ (fuel : ℕ) (s : BisectionState),
      iteration_limit ≤ s.iterations_run + (fuel : ℤ) →
      (bisectionLoop ε cash_flows iteration_limit fuel s).iterations_run < iteration_limit →
      are_equal_enough ε NPV_PRECISION
        (bisectionLoop ε cash_flows iteration_limit fuel s).npv = true := by
  intro fuel
  induction fuel with
  | zero =>
    intro s hf hrun
    simp only [bisectionLoop] at hrun
    simp only [Nat.cast_zero, add_zero] at hf
    exact absurd hrun (not_lt.mpr hf)
  | succ n ih =>
    intro s hf hrun
    by_cases hg : s.iterations_run < iteration_limit ∧
        are_equal_enough ε NPV_PRECISION s.npv = false
    · simp only [bisectionLoop, if_pos hg] at hrun ⊢
      refine ih (bisectionStep cash_flows s) ?_ hrun
      have hstep : (bisectionStep cash_flows s).iterations_run = s.iterations_run + 1 := rfl
      rw [hstep]
      push_cast at hf ⊢
      linarith
    · simp only [bisectionLoop, if_neg hg] at hrun ⊢
      rcases Bool.eq_false_or_eq_true (are_equal_enough ε NPV_PRECISION s.npv) with hb | hb
      · exact hb
      · exact absurd ⟨hrun, hb⟩ hg

theorem bisectionLoop_stay (ε : ℚ) (cash_flows : List ℚ) (iteration_limit : ℤ)
    (fuel : ℕ) (s : BisectionState)
    (h : are_equal_enough ε NPV_PRECISION s.npv = true) :
    bisectionLoop ε cash_flows iteration_limit fuel s = s := by
  cases fuel <;> simp [bisectionLoop, h]

/-- C1: whenever bisection reports is_valid true, the returned irr and npv
are present, the npv field is the NPV of the returned irr, and that NPV has
magnitude at most NPV_PRECISION. -/
theorem bisection_valid_npv (ε : ℚ) (cash_flows : List ℚ) (rate_low rate_high : ℚ)
    (iteration_limit : ℤ)
    (h : (bisection ε cash_flows rate_low rate_high iteration_limit).is_valid = true) :
    ∃ r : ℚ,
      (bisection ε cash_flows rate_low rate_high iteration_limit).irr = some r ∧
      (bisection ε cash_flows rate_low rate_high iteration_limit).npv =
        some (from_cash_flows_and_discount_rate cash_flows r) ∧
      |from_cash_flows_and_discount_rate cash_flows r| ≤ NPV_PRECISION := by
  by_cases hb : 0 < from_cash_flows_and_discount_rate cash_flows rate_low *
      from_cash_flows_and_discount_rate cash_flows rate_high
  · rw [bisection, if_pos hb] at h
    exact absurd h (by simp)
  · rw [bisection, if_neg hb] at h ⊢
    obtain ⟨h1, h2, h3, h4⟩ :=
      bisectionLoop_inv ε cash_flows iteration_limit iteration_limit.toNat
        (initState cash_flows rate_low rate_high)
        (initState_inv cash_flows rate_low rate_high)
    simp only [mkIrr, decide_eq_true_eq] at h ⊢
    exact ⟨_, rfl, by rw [← h4], by rwa [← h4]⟩

/-- Witness for C1: the all-zero series [0] with any bracket and limit 0
returns at once with is_valid true. -/
theorem bisection_valid_npv_witness :
    (bisection f32_epsilon [0] 0 1 0).is_valid = true ∧
    ∃ r : ℚ, (bisection f32_epsilon [0] 0 1 0).irr = some r ∧
      (bisection f32_epsilon [0] 0 1 0).npv =
        some (from_cash_flows_and_discount_rate [0] r) ∧
      |from_cash_flows_and_discount_rate [0] r| ≤ NPV_PRECISION :=
  ⟨by norm_num [bisection, from_cash_flows_and_discount_rate, present_value, List.enum,
      List.enumFrom, mkIrr, initState, bisectionLoop, midpoint_calculate, NPV_PRECISION],
   bisection_valid_npv f32_epsilon [0] 0 1 0
     (by norm_num [bisection, from_cash_flows_and_discount_rate, present_value, List.enum,
       List.enumFrom, mkIrr, initState, bisectionLoop, midpoint_calculate, NPV_PRECISION])⟩

/-- C3: the loop guard of the bisection solver is exactly iterations_run
below the limit AND NOT are_equal_enough(NPV_PRECISION, npv); for every
machine epsilon strictly between 0 and 1 this exit test and the validity
test |npv| <= NPV_PRECISION disagree in both directions on some npv. -/
theorem bisection_guard_and_tolerance_disagree (ε : ℚ) (h0 : 0 < ε) (h1 : ε < 1) :
    (∀ (cash_flows : List ℚ) (iteration_limit : ℤ) (fuel : ℕ) (s : BisectionState),
        bisectionLoop ε cash_flows iteration_limit (fuel + 1) s =
          if s.iterations_run < iteration_limit ∧
              are_equal_enough ε NPV_PRECISION s.npv = false then
            bisectionLoop ε cash_flows iteration_limit fuel (bisectionStep cash_flows s)
          else s) ∧
    (∃ q : ℚ, |q| ≤ NPV_PRECISION ∧ are_equal_enough ε NPV_PRECISION q = false) ∧
    (∃ q : ℚ, are_equal_enough ε NPV_PRECISION q = true ∧ ¬ |q| ≤ NPV_PRECISION) := by
  have hp : (0:ℚ) < 1 + ε := by linarith
  refine ⟨fun _ _ _ _ => rfl, ⟨0, ?_, ?_⟩, ⟨(1 + ε) / 1000, ?_, ?_⟩⟩
  · norm_num [NPV_PRECISION]
  · simp only [are_equal_enough, NPV_PRECISION, decide_eq_false_iff_not, abs_zero]
    rw [if_neg (not_lt.mpr (abs_nonneg _)), show |(1:ℚ)/1000 - 0| = 1/1000 by norm_num,
      show |(1:ℚ)/1000| = 1/1000 by norm_num]
    intro hle
    linarith
  · simp only [are_equal_enough, NPV_PRECISION, decide_eq_true_eq]
    have e1 : |(1:ℚ)/1000 - (1+ε)/1000| = ε/1000 := by
      rw [show (1:ℚ)/1000 - (1+ε)/1000 = -(ε/1000) by ring, abs_neg,
        abs_of_pos (by positivity)]
    have e2 : |(1+ε)/1000| = (1+ε)/1000 := abs_of_pos (by positivity)
    have e3 : |(1:ℚ)/1000| = 1/1000 := by norm_num
    rw [e1, e2, e3, if_pos (by linarith)]
    nlinarith
  · rw [NPV_PRECISION, abs_of_pos (by positivity)]
    intro hle
    linarith

/-- Witness for C3 at the f32 machine epsilon. -/
theorem bisection_guard_and_tolerance_disagree_witness :
    0 < f32_epsilon ∧ f32_epsilon < 1 ∧
    ((∀ (cash_flows : List ℚ) (iteration_limit : ℤ) (fuel : ℕ) (s : BisectionState),
        bisectionLoop f32_epsilon cash_flows iteration_limit (fuel + 1) s =
          if s.iterations_run < iteration_limit ∧
              are_equal_enough f32_epsilon NPV_PRECISION s.npv = false then
            bisectionLoop f32_epsilon cash_flows iteration_limit fuel
              (bisectionStep cash_flows s)
          else s) ∧
    (∃ q : ℚ, |q| ≤ NPV_PRECISION ∧ are_equal_enough f32_epsilon NPV_PRECISION q = false) ∧
    (∃ q : ℚ, are_equal_enough f32_epsilon NPV_PRECISION q = true ∧
      ¬ |q| ≤ NPV_PRECISION)) :=
  ⟨by norm_num [f32_epsilon], by norm_num [f32_epsilon],
   bisection_guard_and_tolerance_disagree f32_epsilon (by norm_num [f32_epsilon])
     (by norm_num [f32_epsilon])⟩

theorem boundsLoop_found_bracket (ε max_value : ℚ) (cash_flows : List ℚ)
    (iteration_limit : ℤ) (go_low : Bool) :
    ∀ (fuel : ℕ) (s : BoundsState),
      (boundsLoop ε max_value cash_flows iteration_limit go_low fuel s).2 = true →
      (boundsLoop ε max_value cash_flows iteration_limit go_low fuel s).1.npv_rate_low *
        (boundsLoop ε max_value cash_flows iteration_limit go_low fuel s).1.npv_rate_high
          ≤ 0 := by
  intro fuel
  induction fuel with
  | zero =>
    intro s h
    simp only [boundsLoop] at h
    exact absurd h (by simp)
  | succ n ih =>
    intro s h
    by_cases h1 : s.iterations_run < iteration_limit
    · by_cases h2 : s.npv_rate_low * s.npv_rate_high ≤ 0
      · simp only [boundsLoop, if_pos h1, if_pos h2] at h ⊢
        exact h2
      · simp only [boundsLoop, if_pos h1, if_neg h2] at h ⊢
        exact ih _ h
    · simp only [boundsLoop, if_neg h1] at h
      exact absurd h (by simp)

/-- C4: when determine reports is_valid true, either the returned NPVs have
product at most zero, or both returned rates are the guess and the NPV at
the guess has magnitude strictly below NPV_PRECISION. -/
theorem determine_valid_bracket_or_good_guess (ε max_value : ℚ) (cash_flows : List ℚ)
    (rate_guess : ℚ) (iteration_limit : ℤ)
    (h : (determine ε max_value cash_flows rate_guess iteration_limit).is_valid = true) :
    (determine ε max_value cash_flows rate_guess iteration_limit).npv_rate_low *
      (determine ε max_value cash_flows rate_guess iteration_limit).npv_rate_high ≤ 0 ∨
    ((determine ε max_value cash_flows rate_guess iteration_limit).rate_low = rate_guess ∧
     (determine ε max_value cash_flows rate_guess iteration_limit).rate_high = rate_guess ∧
     |from_cash_flows_and_discount_rate cash_flows rate_guess| < NPV_PRECISION) := by
  by_cases hg : |from_cash_flows_and_discount_rate cash_flows rate_guess| < NPV_PRECISION
  · rw [determine, if_pos hg]
    exact Or.inr ⟨rfl, rfl, hg⟩
  · rw [determine, if_neg hg] at h ⊢
    exact Or.inl (boundsLoop_found_bracket ε max_value cash_flows iteration_limit _ _ _ h)

/-- Witness for C4: the all-zero series makes the guess itself an acceptable
root. -/
theorem determine_valid_bracket_or_good_guess_witness :
    (determine f32_epsilon f32_max_value [0] 0 0).is_valid = true ∧
    ((determine f32_epsilon f32_max_value [0] 0 0).npv_rate_low *
      (determine f32_epsilon f32_max_value [0] 0 0).npv_rate_high ≤ 0 ∨
    ((determine f32_epsilon f32_max_value [0] 0 0).rate_low = 0 ∧
     (determine f32_epsilon f32_max_value [0] 0 0).rate_high = 0 ∧
     |from_cash_flows_and_discount_rate [0] 0| < NPV_PRECISION)) :=
  ⟨by norm_num [determine, from_cash_flows_and_discount_rate, present_value, List.enum,
      List.enumFrom, NPV_PRECISION],
   determine_valid_bracket_or_good_guess f32_epsilon f32_max_value [0] 0 0
     (by norm_num [determine, from_cash_flows_and_discount_rate, present_value, List.enum,
       List.enumFrom, NPV_PRECISION])⟩

/-- C7 (amended): if the first bisection call stopped before exhausting its
iteration budget and the bracket it returned still has NPVs with product at
most zero, then re-running bisection on the returned bracket with the same
iteration limit returns exactly the same irr. -/
theorem bisection_rebisect (ε : ℚ) (cash_flows : List ℚ) (rate_low rate_high : ℚ)
    (iteration_limit : ℤ)
    (hrun : (bisection ε cash_flows rate_low rate_high iteration_limit).iterations_run <
      iteration_limit)
    (hbr : (bisection ε cash_flows rate_low rate_high iteration_limit).npv_rate_low *
      (bisection ε cash_flows rate_low rate_high iteration_limit).npv_rate_high ≤ 0) :
    (bisection ε cash_flows
        (bisection ε cash_flows rate_low rate_high iteration_limit).rate_low
        (bisection ε cash_flows rate_low rate_high iteration_limit).rate_high
        iteration_limit).irr =
      (bisection ε cash_flows rate_low rate_high iteration_limit).irr := by
  by_cases hb : 0 < from_cash_flows_and_discount_rate cash_flows rate_low *
      from_cash_flows_and_discount_rate cash_flows rate_high
  · rw [bisection, if_pos hb] at hbr
    exact absurd hbr (not_le.mpr hb)
  · set s1 := bisectionLoop ε cash_flows iteration_limit iteration_limit.toNat
      (initState cash_flows rate_low rate_high) with hs1def
    have hfirst : bisection ε cash_flows rate_low rate_high iteration_limit =
        mkIrr iteration_limit s1 := by
      rw [bisection, if_neg hb]
    rw [hfirst] at hrun hbr ⊢
    obtain ⟨h1, h2, h3, h4⟩ : BisectionInv cash_flows s1 :=
      bisectionLoop_inv ε cash_flows iteration_limit iteration_limit.toNat _
        (initState_inv cash_flows rate_low rate_high)
    have hrun' : s1.iterations_run < iteration_limit := hrun
    have heq : are_equal_enough ε NPV_PRECISION s1.npv = true := by
      have hfuel : iteration_limit ≤
          (initState cash_flows rate_low rate_high).iterations_run +
            (iteration_limit.toNat : ℤ) := by
        show iteration_limit ≤ 0 + (iteration_limit.toNat : ℤ)
        rw [zero_add]
        exact Int.self_le_toNat iteration_limit
      exact bisectionLoop_exit ε cash_flows iteration_limit iteration_limit.toNat
        (initState cash_flows rate_low rate_high) hfuel hrun'
    have hbr' : s1.npv_rate_low * s1.npv_rate_high ≤ 0 := hbr
    have hb2 : ¬ 0 < from_cash_flows_and_discount_rate cash_flows
        (mkIrr iteration_limit s1).rate_low *
        from_cash_flows_and_discount_rate cash_flows (mkIrr iteration_limit s1).rate_high := by
      show ¬ 0 < from_cash_flows_and_discount_rate cash_flows s1.rate_low *
        from_cash_flows_and_discount_rate cash_flows s1.rate_high
      rw [← h1, ← h2]
      exact not_lt.mpr hbr'
    rw [bisection, if_neg hb2]
    have hstay : bisectionLoop ε cash_flows iteration_limit iteration_limit.toNat
        (initState cash_flows (mkIrr iteration_limit s1).rate_low
          (mkIrr iteration_limit s1).rate_high) =
        initState cash_flows (mkIrr iteration_limit s1).rate_low
          (mkIrr iteration_limit s1).rate_high := by
      apply bisectionLoop_stay
      show are_equal_enough ε NPV_PRECISION
        (from_cash_flows_and_discount_rate cash_flows
          (midpoint_calculate s1.rate_low s1.rate_high)) = true
      rw [← h3, ← h4]
      exact heq
    rw [hstay]
    show some (midpoint_calculate s1.rate_low s1.rate_high) = some s1.irr
    rw [h3]

/-- Witness for C7: the series [1001/1000, -2] on bracket [0, 2] has NPV
exactly NPV_PRECISION at the first midpoint, so the loop exits at once,
well under the limit 5, with a still-valid bracket. -/
theorem bisection_rebisect_witness :
    (bisection f32_epsilon [1001/1000, -2] 0 2 5).iterations_run < 5 ∧
    (bisection f32_epsilon [1001/1000, -2] 0 2 5).npv_rate_low *
      (bisection f32_epsilon [1001/1000, -2] 0 2 5).npv_rate_high ≤ 0 ∧
    (bisection f32_epsilon [1001/1000, -2]
        (bisection f32_epsilon [1001/1000, -2] 0 2 5).rate_low
        (bisection f32_epsilon [1001/1000, -2] 0 2 5).rate_high 5).irr =
      (bisection f32_epsilon [1001/1000, -2] 0 2 5).irr :=
  ⟨by norm_num [bisection, from_cash_flows_and_discount_rate, present_value, List.enum,
      List.enumFrom, mkIrr, initState, bisectionLoop, bisectionStep, are_equal_enough,
      midpoint_calculate, NPV_PRECISION, f32_epsilon, abs_of_pos, abs_of_neg],
   by norm_num [bisection, from_cash_flows_and_discount_rate, present_value, List.enum,
      List.enumFrom, mkIrr, initState, bisectionLoop, bisectionStep, are_equal_enough,
      midpoint_calculate, NPV_PRECISION, f32_epsilon, abs_of_pos, abs_of_neg],
   bisection_rebisect f32_epsilon [1001/1000, -2] 0 2 5
     (by norm_num [bisection, from_cash_flows_and_discount_rate, present_value, List.enum,
       List.enumFrom, mkIrr, initState, bisectionLoop, bisectionStep, are_equal_enough,
       midpoint_calculate, NPV_PRECISION, f32_epsilon, abs_of_pos, abs_of_neg])
     (by norm_num [bisection, from_cash_flows_and_discount_rate, present_value, List.enum,
       List.enumFrom, mkIrr, initState, bisectionLoop, bisectionStep, are_equal_enough,
       midpoint_calculate, NPV_PRECISION, f32_epsilon, abs_of_pos, abs_of_neg])⟩

/-- C7 counterexample: for the series [-100, 20] with bracket [-9/10, 0] and
iteration limit 1, the first call returns bracket [-9/10, -9/20] with irr
-27/40; feeding that bracket back in with the same limit gives irr -63/80,
which is 9/80 away from the first irr, far beyond NPV_PRECISION. -/
theorem bisection_rebisect_counterexample :
    (bisection f32_epsilon [-100, 20] (-9/10) 0 1).rate_low = -9/10 ∧
    (bisection f32_epsilon [-100, 20] (-9/10) 0 1).rate_high = -9/20 ∧
    (bisection f32_epsilon [-100, 20] (-9/10) 0 1).irr = some (-27/40) ∧
    (bisection f32_epsilon [-100, 20] (-9/10) (-9/20) 1).irr = some (-63/80) ∧
    ¬ |(-63/80 : ℚ) - (-27/40)| ≤ NPV_PRECISION := by
  refine ⟨?_, ?_, ?_, ?_, by norm_num [NPV_PRECISION, abs_of_pos]⟩ <;>
    norm_num [bisection, from_cash_flows_and_discount_rate, present_value, List.enum,
      List.enumFrom, mkIrr, initState, bisectionLoop, bisectionStep, are_equal_enough,
      midpoint_calculate, NPV_PRECISION, f32_epsilon, abs_of_pos, abs_of_neg]
